import Mathlib

/-!
Shallow embedding of the remoting and sharding core of Coerce-rs.

Sources embedded directly:
  - src/coerce-rt/src/remote/context.rs   (`RemoteActorContext::handle`,
    `handler_name`, `RemoteActorContextBuilder::with_handler`,
    `with_actor_context`, `RemoteActorError`)
  - src/coerce-remote/src/context/mod.rs  (`create_message`; its `handle` and
    `handler_name` are textually the same as the coerce-rt versions)
  - src/coerce/tests/test_remote_sharding.rs (shard allocation scenario)

Components whose source files are not available (the `RemoteHandler` registry
actor, `RemoteActorMessageHandler`, `ShardCoordinator`, `ShardHost`) are
modelled from the specification; their doc comments say so explicitly.

Machine integers: actor ids, shard ids and node ids are opaque identifiers in
the source (no arithmetic is performed on them), so they are modelled as `Nat`.
Byte buffers (`Vec<u8>` / `&[u8]`) are modelled as `List Nat`.
-/

/-- `ActorId`: opaque identifier of one actor instance. -/
abbrev ActorId := Nat

/-- Byte buffers (`Vec<u8>` / `&[u8]`). -/
abbrev Bytes := List Nat

/-- Association-list lookup: the model of `HashMap::get` on the registry maps
(first entry with the key wins; the builder never inserts a key twice without
overwriting, see `insertA`). -/
def lookupA {α β : Type} [DecidableEq α] : List (α × β) → α → Option β
  | [], _ => none
  | (k, v) :: rest, k' => if k' = k then some v else lookupA rest k'

/-- Association-list insert with overwrite: the model of `HashMap::insert`
("duplicate identifiers overwrite"). -/
def insertA {α β : Type} [DecidableEq α] (l : List (α × β)) (k : α) (v : β) :
    List (α × β) :=
  (k, v) :: l.filter (fun p => if p.1 = k then false else true)

/-- `RemoteActorError` (context.rs lines 31 to 34): the single error kind the
remote context produces. -/
inductive RemoteActorError where
  | ActorUnavailable
deriving DecidableEq

/-- The observable effect of one invocation of a remote message handler's
`handle(actor_id, buffer, tx)`: `delivered` is the value the handler sends
through the oneshot completion sender `tx` (`none` when `tx` is dropped
without a value; the channel's value type is `Vec<u8>`, it has no error
variant), and `dispatched` lists the local actors the handler dispatched a
message to. -/
structure HandlerEffect where
  delivered : Option Bytes
  dispatched : List ActorId
deriving DecidableEq

/-- A registered polymorphic handler (`Box<dyn RemoteMessageHandler>`),
represented by its observable behavior on one call. -/
structure RemoteMessageHandlerFn where
  run : ActorId → Bytes → HandlerEffect

/-- `RemoteActorContext` (context.rs lines 12 to 15): it holds a reference to
the running `RemoteHandler` registry actor. The model carries the registry
actor's state directly: `handlers` answers `GetHandler`, `handler_types`
answers `HandlerName`, and `registrySendOk` says whether sends to the registry
actor succeed (`false` models a stopped or unreachable registry actor, in
which case `ActorRef::send` returns `Err`). -/
structure RemoteActorContext where
  handlers : List (String × RemoteMessageHandlerFn)
  handler_types : List ((String × String) × String)
  registrySendOk : Bool

/-- Modelled from the spec: the `RemoteHandler` registry actor's reply to
`GetHandler(identifier)` (its source file is not under src/; spec section 4.1:
`lookup_by_id(identifier) -> Option<Handler>`), wrapped in the `Result` of
`ActorRef::send` as used on context.rs line 44. -/
def RemoteActorContext.getHandler (ctx : RemoteActorContext)
    (identifier : String) : Except Unit (Option RemoteMessageHandlerFn) :=
  if ctx.registrySendOk then Except.ok (lookupA ctx.handlers identifier)
  else Except.error ()

/-- `RemoteActorContext::handle` (context.rs lines 37 to 54), instrumented
with the effect that took place. A fresh oneshot channel `(tx, rx)` is
created; the handler is looked up with `GetHandler(identifier)`; only on
`Ok(Some(handler))` is the handler invoked with `tx`; finally `rx.await`
yields `Ok(res)` when a value was sent and `Err` when every sender was
dropped without a value, which the code maps to `ActorUnavailable`. -/
def RemoteActorContext.handleWithEffect (ctx : RemoteActorContext)
    (identifier : String) (actor_id : ActorId) (buffer : Bytes) :
    (Except RemoteActorError Bytes) × HandlerEffect :=
  let effect : HandlerEffect :=
    match ctx.getHandler identifier with
    | Except.ok (some handler) => handler.run actor_id buffer
    | Except.ok none => { delivered := none, dispatched := [] }
    | Except.error _ => { delivered := none, dispatched := [] }
  match effect.delivered with
  | some res => (Except.ok res, effect)
  | none => (Except.error RemoteActorError.ActorUnavailable, effect)

/-- `RemoteActorContext::handle`: the value returned to the caller. -/
def RemoteActorContext.handle (ctx : RemoteActorContext) (identifier : String)
    (actor_id : ActorId) (buffer : Bytes) : Except RemoteActorError Bytes :=
  (ctx.handleWithEffect identifier actor_id buffer).fst

/-- The values delivered through the completion channel of one `handle`
invocation, as a list (empty when the sender was dropped without a value). -/
def RemoteActorContext.completionDeliveries (ctx : RemoteActorContext)
    (identifier : String) (actor_id : ActorId) (buffer : Bytes) : List Bytes :=
  ((ctx.handleWithEffect identifier actor_id buffer).snd.delivered).toList

/-- Dispatches to local actors performed during one `handle` invocation. -/
def RemoteActorContext.handleDispatches (ctx : RemoteActorContext)
    (identifier : String) (actor_id : ActorId) (buffer : Bytes) : List ActorId :=
  (ctx.handleWithEffect identifier actor_id buffer).snd.dispatched

/-- C2: `handle(identifier, actor_id, buffer)` for an `identifier` never
registered returns `Err(ActorUnavailable)` — the lookup yields no handler (or
the registry send fails), so the completion sender is dropped without a value
and `rx.await` errors — and `ActorUnavailable` is the only error value the
operation can produce. The embedding is a total function, so the operation
always returns (never hangs). -/
theorem handle_unknown_identifier_unavailable (ctx : RemoteActorContext)
    (identifier : String) (actor_id : ActorId) (buffer : Bytes)
    (h : lookupA ctx.handlers identifier = none) :
    ctx.handle identifier actor_id buffer
      = Except.error RemoteActorError.ActorUnavailable ∧
    ∀ (ctx2 : RemoteActorContext) (i2 : String) (a2 : ActorId) (b2 : Bytes)
      (e : RemoteActorError), ctx2.handle i2 a2 b2 = Except.error e →
      e = RemoteActorError.ActorUnavailable := by
  constructor
  · unfold RemoteActorContext.handle RemoteActorContext.handleWithEffect
      RemoteActorContext.getHandler
    by_cases hs : ctx.registrySendOk
    · simp [hs, h]
    · simp [hs]
  · intro ctx2 i2 a2 b2 e _
    cases e
    rfl

/-- Witness for C2 at a concrete context with an empty registry. -/
theorem handle_unknown_identifier_unavailable_witness :
    lookupA (RemoteActorContext.mk [] [] true).handlers "GetStatusRequest"
      = none ∧
    (RemoteActorContext.mk [] [] true).handle "GetStatusRequest" 0 []
      = Except.error RemoteActorError.ActorUnavailable :=
  ⟨rfl, (handle_unknown_identifier_unavailable
    (RemoteActorContext.mk [] [] true) "GetStatusRequest" 0 [] rfl).1⟩

/-- C7: at most one value is ever delivered through the completion channel of
one `handle` invocation, and the caller observes exactly one outcome per
invocation: `Ok v` exactly when the single delivery was `v`, and the
`ActorUnavailable` failure exactly when the channel closed with no delivery. -/
theorem completion_single_delivery (ctx : RemoteActorContext)
    (identifier : String) (actor_id : ActorId) (buffer : Bytes) :
    (ctx.completionDeliveries identifier actor_id buffer).length ≤ 1 ∧
    (∀ v : Bytes, ctx.handle identifier actor_id buffer = Except.ok v ↔
      ctx.completionDeliveries identifier actor_id buffer = [v]) ∧
    (ctx.handle identifier actor_id buffer
        = Except.error RemoteActorError.ActorUnavailable ↔
      ctx.completionDeliveries identifier actor_id buffer = []) := by
  unfold RemoteActorContext.handle RemoteActorContext.completionDeliveries
    RemoteActorContext.handleWithEffect
  cases hg : ctx.getHandler identifier with
  | ok o =>
    cases o with
    | none => simp
    | some handler =>
      cases hd : (handler.run actor_id buffer).delivered with
      | none => simp [hd]
      | some v => simp [hd]
  | error e => simp

/-- C9: when the registry lookup does not resolve the identifier — lookup
returns `None`, or the registry send itself fails — no handler is invoked:
the invocation dispatches no message to any local actor, delivers nothing
through the completion channel, and returns `ActorUnavailable`. -/
theorem handle_unresolved_no_dispatch (ctx : RemoteActorContext)
    (identifier : String) (actor_id : ActorId) (buffer : Bytes)
    (h : lookupA ctx.handlers identifier = none ∨ ctx.registrySendOk = false) :
    ctx.handleDispatches identifier actor_id buffer = [] ∧
    ctx.completionDeliveries identifier actor_id buffer = [] ∧
    ctx.handle identifier actor_id buffer
      = Except.error RemoteActorError.ActorUnavailable := by
  unfold RemoteActorContext.handleDispatches
    RemoteActorContext.completionDeliveries RemoteActorContext.handle
    RemoteActorContext.handleWithEffect RemoteActorContext.getHandler
  rcases h with h | h
  · by_cases hs : ctx.registrySendOk
    · simp [hs, h]
    · simp [hs]
  · simp [h]

/-- Witness for C9 at a concrete context whose registry send fails. -/
theorem handle_unresolved_no_dispatch_witness :
    ((RemoteActorContext.mk [] [] false).registrySendOk = false) ∧
    (RemoteActorContext.mk [] [] false).handleDispatches "x" 3 [1] = [] ∧
    (RemoteActorContext.mk [] [] false).handle "x" 3 [1]
      = Except.error RemoteActorError.ActorUnavailable :=
  ⟨rfl,
   (handle_unresolved_no_dispatch (RemoteActorContext.mk [] [] false)
      "x" 3 [1] (Or.inr rfl)).1,
   (handle_unresolved_no_dispatch (RemoteActorContext.mk [] [] false)
      "x" 3 [1] (Or.inr rfl)).2.2⟩

/-- Modelled from the spec: the `RemoteHandler` registry actor's reply to
`HandlerName::<A, M>` (its source file is not under src/; spec section 4.1:
`lookup_by_types(actor_type, message_type) -> Option<identifier>`, built by the
builder's `handler_types` map), wrapped in the `Result` of `ActorRef::send`.
Actor and message types are represented by their type names. -/
def RemoteActorContext.handlerNameSend (ctx : RemoteActorContext)
    (actor_type message_type : String) : Except Unit (Option String) :=
  if ctx.registrySendOk then
    Except.ok (lookupA ctx.handler_types (actor_type, message_type))
  else Except.error ()

/-- `RemoteActorContext::handler_name` (context.rs lines 56 to 66): sends
`HandlerName::<A, M>` to the registry actor and calls `.unwrap()` on the send
result. The outer `Option` models control flow: `some v` is a normal return of
`v`, `none` is the `.unwrap()` panic on a failed send. -/
def RemoteActorContext.handler_name (ctx : RemoteActorContext)
    (actor_type message_type : String) : Option (Option String) :=
  match ctx.handlerNameSend actor_type message_type with
  | Except.ok v => some v
  | Except.error _ => none

/-- `ActorRef<A>` as used by `create_message`: only its `id` field is read. -/
structure ActorRefM where
  id : ActorId
deriving DecidableEq

/-- `RemoteHandlerMessage<M>` (coerce-remote codec): the outbound envelope
`{ actor_id, handler_type, message }`. -/
structure RemoteHandlerMessage (M : Type) where
  actor_id : ActorId
  handler_type : String
  message : M
deriving DecidableEq

/-- `RemoteActorContext::create_message` (coerce-remote context/mod.rs lines
62 to 80): resolves `handler_name::<A, M>()` and, only on `Some`, builds the
envelope from the target ref's id, the identifier and the unchanged message.
The outer `Option` models control flow as in `handler_name`: `none` is the
propagated panic of `handler_name`'s `.unwrap()`. -/
def RemoteActorContext.create_message {M : Type} (ctx : RemoteActorContext)
    (actor_type message_type : String) (actor_ref : ActorRefM) (message : M) :
    Option (Option (RemoteHandlerMessage M)) :=
  match ctx.handler_name actor_type message_type with
  | none => none
  | some (some handler_type) =>
      some (some { actor_id := actor_ref.id, handler_type := handler_type,
                   message := message })
  | some none => some none

/-- C4: when the registry send succeeds, `create_message` returns
`Some(envelope)` exactly when `handler_name` returns `Some(identifier)`, and
the envelope is exactly `{ actor_id := actor_ref.id, handler_type :=
identifier, message }` with the message unchanged; when the pair was never
registered, both `handler_name` and `create_message` return `None`. -/
theorem create_message_envelope_spec {M : Type} (ctx : RemoteActorContext)
    (actor_type message_type : String) (actor_ref : ActorRefM) (message : M)
    (h : ctx.registrySendOk = true) :
    (∀ i : String,
      lookupA ctx.handler_types (actor_type, message_type) = some i →
        ctx.handler_name actor_type message_type = some (some i) ∧
        ctx.create_message actor_type message_type actor_ref message
          = some (some { actor_id := actor_ref.id, handler_type := i,
                         message := message })) ∧
    (lookupA ctx.handler_types (actor_type, message_type) = none →
        ctx.handler_name actor_type message_type = some none ∧
        ctx.create_message actor_type message_type actor_ref message
          = some none) ∧
    (∀ env : RemoteHandlerMessage M,
      ctx.create_message actor_type message_type actor_ref message
          = some (some env) →
        ctx.handler_name actor_type message_type
            = some (some env.handler_type) ∧
        env.actor_id = actor_ref.id ∧ env.message = message) := by
  unfold RemoteActorContext.create_message RemoteActorContext.handler_name
    RemoteActorContext.handlerNameSend
  refine ⟨?_, ?_, ?_⟩
  · intro i hi
    simp [h, hi]
  · intro hn
    simp [h, hn]
  · intro env
    cases hl : lookupA ctx.handler_types (actor_type, message_type) with
    | none => simp [h, hl]
    | some i =>
      simp [h, hl]
      intro he
      subst he
      simp

/-- Witness for C4 at a concrete context with one registered pair. -/
theorem create_message_envelope_spec_witness :
    ((RemoteActorContext.mk [] [(("TestActor", "GetStatusRequest"),
        "GetStatusRequest")] true).registrySendOk = true) ∧
    (RemoteActorContext.mk [] [(("TestActor", "GetStatusRequest"),
        "GetStatusRequest")] true).create_message "TestActor"
        "GetStatusRequest" (ActorRefM.mk 7) (5 : Nat)
      = some (some (RemoteHandlerMessage.mk 7 "GetStatusRequest" 5)) :=
  ⟨rfl,
   ((create_message_envelope_spec
      (RemoteActorContext.mk [] [(("TestActor", "GetStatusRequest"),
        "GetStatusRequest")] true) "TestActor" "GetStatusRequest"
      (ActorRefM.mk 7) (5 : Nat) rfl).1 "GetStatusRequest" rfl).2⟩

/-- C8: `handler_name` returns normally exactly when the send to the registry
actor succeeds; when the registry actor is stopped or unreachable the
`.unwrap()` panics instead of returning `None`, and `create_message`, which
calls it, panics as well. -/
theorem handler_name_unwrap_requires_send {M : Type} (ctx : RemoteActorContext)
    (actor_type message_type : String) (actor_ref : ActorRefM) (message : M) :
    ((ctx.handler_name actor_type message_type).isSome
      ↔ ctx.registrySendOk = true) ∧
    (ctx.registrySendOk = false →
      ctx.handler_name actor_type message_type = none ∧
      ctx.create_message actor_type message_type actor_ref message = none) := by
  unfold RemoteActorContext.create_message RemoteActorContext.handler_name
    RemoteActorContext.handlerNameSend
  by_cases h : ctx.registrySendOk <;> simp [h]

/-- Witness for C8 at a concrete context whose registry send fails. -/
theorem handler_name_unwrap_requires_send_witness :
    ((RemoteActorContext.mk [] [] false).registrySendOk = false) ∧
    (RemoteActorContext.mk [] [] false).handler_name "TestActor" "M" = none ∧
    (RemoteActorContext.mk [] [] false).create_message "TestActor" "M"
      (ActorRefM.mk 1) (0 : Nat) = none :=
  ⟨rfl,
   (handler_name_unwrap_requires_send (RemoteActorContext.mk [] [] false)
      "TestActor" "M" (ActorRefM.mk 1) (0 : Nat)).2 rfl⟩

/-- `ActorContext` handles are compared by identity here: distinct ids are
distinct local actor systems. -/
abbrev ActorContextId := Nat

/-- `ActorContext::current_context()`: the ambient default context. -/
def currentContext : ActorContextId := 0

/-- `RemoteActorContextBuilder` (context.rs lines 17 to 20): `inner` is the
optional explicitly supplied `ActorContext`; each registered handler is
represented by the `ActorContext` it captured at registration time, which is
the context the built handler dispatches into. -/
structure RemoteActorContextBuilder where
  inner : Option ActorContextId
  handlers : List (String × ActorContextId)
deriving DecidableEq

/-- `RemoteActorContext::builder()` (context.rs lines 23 to 28). -/
def RemoteActorContextBuilder.mkBuilder : RemoteActorContextBuilder :=
  { inner := none, handlers := [] }

/-- `RemoteActorContextBuilder::with_handler` (context.rs lines 74 to 90):
reads `self.inner` at call time — `Some(ctx)` is cloned, `None` falls back to
`ActorContext::current_context()` — builds the handler over that context, and
inserts it under `identifier`. -/
def RemoteActorContextBuilder.with_handler (b : RemoteActorContextBuilder)
    (identifier : String) : RemoteActorContextBuilder :=
  let ctx := match b.inner with
    | some c => c
    | none => currentContext
  { b with handlers := insertA b.handlers identifier ctx }

/-- `RemoteActorContextBuilder::with_actor_context` (context.rs lines 92 to
96): stores the supplied context for later builder calls. -/
def RemoteActorContextBuilder.with_actor_context (b : RemoteActorContextBuilder)
    (ctx : ActorContextId) : RemoteActorContextBuilder :=
  { b with inner := some ctx }

/-- C10: `with_handler` captures the actor context in effect at the moment it
is called. On a builder with no context set yet, registering a handler before
`with_actor_context ctx` binds it to the ambient default context, while
registering it after binds it to `ctx`; so when `ctx` differs from the ambient
default, the order of the two builder calls changes the context the registered
handler dispatches into. -/
theorem with_handler_captures_current_context (b : RemoteActorContextBuilder)
    (identifier : String) (ctx : ActorContextId) (h : b.inner = none) :
    lookupA ((b.with_handler identifier).with_actor_context ctx).handlers
        identifier = some currentContext ∧
    lookupA ((b.with_actor_context ctx).with_handler identifier).handlers
        identifier = some ctx ∧
    (ctx ≠ currentContext →
      lookupA ((b.with_handler identifier).with_actor_context ctx).handlers
          identifier ≠
        lookupA ((b.with_actor_context ctx).with_handler identifier).handlers
          identifier) := by
  unfold RemoteActorContextBuilder.with_handler
    RemoteActorContextBuilder.with_actor_context
  refine ⟨?_, ?_, ?_⟩
  · simp [h, insertA, lookupA]
  · simp [insertA, lookupA]
  · intro hne
    simp [h, insertA, lookupA]
    intro he
    exact absurd he.symm hne

/-- Witness for C10 on the fresh builder and a non-ambient context. -/
theorem with_handler_captures_current_context_witness :
    (RemoteActorContextBuilder.mkBuilder.inner = none) ∧
    lookupA ((RemoteActorContextBuilder.mkBuilder.with_handler
        "GetStatusRequest").with_actor_context 1).handlers "GetStatusRequest"
      = some currentContext ∧
    lookupA ((RemoteActorContextBuilder.mkBuilder.with_actor_context
        1).with_handler "GetStatusRequest").handlers "GetStatusRequest"
      = some 1 :=
  ⟨rfl,
   (with_handler_captures_current_context RemoteActorContextBuilder.mkBuilder
      "GetStatusRequest" 1 rfl).1,
   (with_handler_captures_current_context RemoteActorContextBuilder.mkBuilder
      "GetStatusRequest" 1 rfl).2.1⟩

/-- Modelled from the spec: `RemoteActorMessageHandler::<A, M>` (its source
file, coerce-rt's remote/handler.rs, is not under src/). Spec section 4.2: on
`handle(actor_id, buffer, tx)` it deserializes `buffer` into the concrete
message type, resolves the local actor and dispatches the message to it,
serializes the result and delivers it through `tx`; per the spec's note, the
observed construction delivers nothing through the completion channel when
deserialization fails, and delivers nothing when the target actor is absent.
`resolveDispatch` combines actor resolution and dispatch: `none` means the
actor was absent (no dispatch happened). -/
def RemoteActorMessageHandler {M R : Type} (deserialize : Bytes → Option M)
    (resolveDispatch : ActorId → M → Option R) (serialize : R → Bytes) :
    RemoteMessageHandlerFn :=
  { run := fun actor_id buffer =>
      match deserialize buffer with
      | none => { delivered := none, dispatched := [] }
      | some m =>
        match resolveDispatch actor_id m with
        | none => { delivered := none, dispatched := [] }
        | some r => { delivered := some (serialize r), dispatched := [actor_id] } }

/-- A concrete registered handler whose deserializer accepts exactly the
one-element buffers: `[x]` decodes to `x`, anything else fails to decode.
Dispatch always succeeds and echoes the message; results serialize back to a
one-element buffer. -/
def echoHandler : RemoteMessageHandlerFn :=
  RemoteActorMessageHandler
    (fun b => match b with | [x] => some x | _ => none)
    (fun _ m => some (m + 1))
    (fun r => [r])

/-- A concrete context with `echoHandler` registered under "echo". -/
def echoContext : RemoteActorContext :=
  { handlers := [("echo", echoHandler)], handler_types := [],
    registrySendOk := true }

/-- C5 (code-level behavior at the failing input): for the registered handler
under "echo" and the buffer `[1, 2]`, whose deserialization fails, nothing is
delivered through the completion channel — in particular no error result is
delivered, the channel's value type `Vec<u8>` has no error variant — and the
caller of `handle` receives `Err(ActorUnavailable)`, byte-for-byte the same
outcome as calling `handle` with the never-registered identifier "missing";
a successful call at buffer `[1]` returns `Ok`. The claim that deserialization
failure is reported through the completion channel as an error result is
therefore false of the code. -/
theorem deserialization_failure_not_surfaced :
    echoContext.completionDeliveries "echo" 0 [1, 2] = [] ∧
    echoContext.handle "echo" 0 [1, 2]
      = Except.error RemoteActorError.ActorUnavailable ∧
    echoContext.handle "missing" 0 [1, 2]
      = Except.error RemoteActorError.ActorUnavailable ∧
    echoContext.handle "echo" 0 [1] = Except.ok [2] := by
  refine ⟨rfl, rfl, rfl, rfl⟩

/-- `ShardId`: unsigned integer partition identifier (u32 in the test; no
arithmetic is performed on it). -/
abbrev ShardId := Nat

/-- `NodeId`: unsigned integer node identifier. -/
abbrev NodeId := Nat

/-- `AllocateShardResult` (test_remote_sharding.rs imports; spec data model):
`Allocated(NodeId) | AlreadyAllocated(NodeId) | Failed`. -/
inductive AllocateShardResult where
  | Allocated (node_id : NodeId)
  | AlreadyAllocated (node_id : NodeId)
  | Failed
deriving DecidableEq

/-- `ShardHostState` (test_remote_sharding.rs lines 75 to 80; spec data
model): one entry per known host; `shards` is the set of shards the host
currently hosts, observable through `GetStats`. -/
structure ShardHostStateM where
  node_id : NodeId
  node_tag : String
  shards : List ShardId
deriving DecidableEq

/-- One persisted allocation decision, as appended to the journal. -/
structure AllocationEvent where
  shard_id : ShardId
  node_id : NodeId
deriving DecidableEq

/-- Modelled from the spec: the state shared between the Shard Coordinator,
the journal collaborator and the shard hosts (the coordinator and host source
files are not under src/). `table` is the coordinator's in-memory
`ShardAssignmentTable`; `journal` is the persisted sequence of allocation
events, which survives a coordinator restart; `hosts` are the registered
`ShardHostState`s, whose host actors also survive a coordinator restart (the
test keeps the same `shard_host` across both coordinators). -/
structure ShardingState where
  table : List (ShardId × NodeId)
  journal : List AllocationEvent
  hosts : List ShardHostStateM
deriving DecidableEq

/-- Modelled from the spec: host selection for a fresh allocation — "any
currently known host, deterministic tie-break by lowest node_id"; `none` when
no host is registered. -/
def pickHost : List ShardHostStateM → Option NodeId
  | [] => none
  | h :: rest =>
    match pickHost rest with
    | none => some h.node_id
    | some n => some (min h.node_id n)

/-- The registered hosts after the coordinator allocates shard `s` to node
`n`: the host with node id `n` records `s` in its hosted-shard set (the
coordinator informs the host of the allocation; `GetStats` reads this set). -/
def hostsAfterAllocation (hosts : List ShardHostStateM) (s : ShardId)
    (n : NodeId) : List ShardHostStateM :=
  hosts.map (fun h =>
    if h.node_id = n then { h with shards := h.shards ++ [s] } else h)

/-- Modelled from the spec: `AllocateShard(shard_id)` (spec section 4.5). If
`shard_id` already has an assignment, return `AlreadyAllocated(node_id)` with
no side effects. Otherwise pick a host; with no host the allocation fails;
with host `n`, record `shard_id → n` in the table, persist the decision to the
journal before returning, inform the host, and return `Allocated(n)`. -/
def allocateShard (σ : ShardingState) (s : ShardId) :
    AllocateShardResult × ShardingState :=
  match lookupA σ.table s with
  | some n => (AllocateShardResult.AlreadyAllocated n, σ)
  | none =>
    match pickHost σ.hosts with
    | none => (AllocateShardResult.Failed, σ)
    | some n =>
      (AllocateShardResult.Allocated n,
       { table := σ.table ++ [(s, n)],
         journal := σ.journal ++ [{ shard_id := s, node_id := n }],
         hosts := hostsAfterAllocation σ.hosts s n })

/-- Modelled from the spec: journal replay — rebuilding the assignment table
from the persisted allocation events. -/
def replayJournal (journal : List AllocationEvent) : List (ShardId × NodeId) :=
  journal.map (fun e => (e.shard_id, e.node_id))

/-- Modelled from the spec: stopping the coordinator and building a fresh one
against the same persisted state and hosts (spec section 4.5, restart
recovery): the new coordinator starts with an empty table and reconstructs
shard ownership by replaying the persisted allocation events; the journal and
the host actors are untouched. -/
def restartCoordinator (σ : ShardingState) : ShardingState :=
  { σ with table := replayJournal σ.journal }

/-- Modelled from the spec: `GetStats` on the host with node id `n` reports
the shards that host currently holds. -/
def getStats (σ : ShardingState) (n : NodeId) : Option (List ShardId) :=
  (σ.hosts.find? (fun h => h.node_id == n)).map (fun h => h.shards)

/-- One externally driven coordinator operation: an `AllocateShard` request or
a stop-and-rebuild of the coordinator. -/
inductive CoordinatorOp where
  | alloc (s : ShardId)
  | restart
deriving DecidableEq

/-- The state after one coordinator operation. -/
def stepOp (σ : ShardingState) : CoordinatorOp → ShardingState
  | CoordinatorOp.alloc s => (allocateShard σ s).snd
  | CoordinatorOp.restart => restartCoordinator σ

/-- The state after a sequence of coordinator operations. -/
def runOps (σ : ShardingState) : List CoordinatorOp → ShardingState
  | [] => σ
  | op :: rest => runOps (stepOp σ op) rest

/-- The initial system state: hosts registered through `add_host` with empty
shard sets (`shards: Default::default()` in the test), empty table, empty
journal. -/
def initShardingState (nodes : List (NodeId × String)) : ShardingState :=
  { table := [], journal := [],
    hosts := nodes.map (fun p =>
      { node_id := p.1, node_tag := p.2, shards := [] }) }

/-- Appending entries on the right never changes a key that already resolves. -/
theorem lookupA_append_some {α β : Type} [DecidableEq α] {l : List (α × β)}
    (l2 : List (α × β)) {k : α} {v : β} (h : lookupA l k = some v) :
    lookupA (l ++ l2) k = some v := by
  induction l with
  | nil => simp [lookupA] at h
  | cons p rest ih =>
    cases p with
    | mk pk pv =>
      by_cases hk : k = pk
      · simp [lookupA, hk] at h ⊢
        exact h
      · simp [lookupA, hk] at h ⊢
        exact ih h

/-- Appending a binding for an unbound key makes that key resolve to it. -/
theorem lookupA_append_self {α β : Type} [DecidableEq α] {l : List (α × β)}
    {k : α} (h : lookupA l k = none) (v : β) :
    lookupA (l ++ [(k, v)]) k = some v := by
  induction l with
  | nil => simp [lookupA]
  | cons p rest ih =>
    cases p with
    | mk pk pv =>
      by_cases hk : k = pk
      · simp [lookupA, hk] at h
      · simp [lookupA, hk] at h ⊢
        exact ih h

/-- An unbound key has no entry in the association list. -/
theorem lookupA_none_not_mem {α β : Type} [DecidableEq α] {l : List (α × β)}
    {k : α} (h : lookupA l k = none) : ∀ v : β, (k, v) ∉ l := by
  induction l with
  | nil => simp
  | cons p rest ih =>
    cases p with
    | mk pk pv =>
      by_cases hk : k = pk
      · simp [lookupA, hk] at h
      · simp [lookupA, hk] at h
        intro v hv
        rcases List.mem_cons.mp hv with he | hm
        · rw [Prod.mk.injEq] at he
          exact hk he.1
        · exact ih h v hm

/-- The picked host is one of the registered hosts. -/
theorem pickHost_mem : ∀ {hosts : List ShardHostStateM} {n : NodeId},
    pickHost hosts = some n → n ∈ hosts.map ShardHostStateM.node_id := by
  intro hosts
  induction hosts with
  | nil => intro n h; simp [pickHost] at h
  | cons hd rest ih =>
    intro n h
    unfold pickHost at h
    cases hp : pickHost rest with
    | none =>
      rw [hp] at h
      simp at h
      simp [← h]
    | some m =>
      rw [hp] at h
      simp at h
      rcases min_choice hd.node_id m with hmin | hmin
      · rw [hmin] at h
        simp [← h]
      · rw [hmin] at h
        subst h
        simp only [List.map_cons, List.mem_cons]
        exact Or.inr (ih hp)

/-- With at least one registered host, host selection succeeds. -/
theorem pickHost_of_ne_nil {hosts : List ShardHostStateM} (h : hosts ≠ []) :
    ∃ n : NodeId, pickHost hosts = some n := by
  cases hosts with
  | nil => exact absurd rfl h
  | cons hd rest =>
    unfold pickHost
    cases pickHost rest with
    | none => exact ⟨hd.node_id, rfl⟩
    | some m => exact ⟨min hd.node_id m, rfl⟩

/-- The coordinator's in-memory table is exactly the replay of the journal. -/
def tableMatchesJournal (σ : ShardingState) : Prop :=
  σ.table = replayJournal σ.journal

/-- Every table entry binds its shard to a single node. -/
def tableFunctional (t : List (ShardId × NodeId)) : Prop :=
  ∀ (s : ShardId) (n₁ n₂ : NodeId), (s, n₁) ∈ t → (s, n₂) ∈ t → n₁ = n₂

/-- Every shard a host holds is assigned to that host in the table. -/
def hostsConsistent (σ : ShardingState) : Prop :=
  ∀ h ∈ σ.hosts, ∀ s ∈ h.shards, lookupA σ.table s = some h.node_id

/-- The reachable-state invariant of the sharding system. -/
def ShardingInv (σ : ShardingState) : Prop :=
  tableMatchesJournal σ ∧ tableFunctional σ.table ∧ hostsConsistent σ

/-- Appending a binding for an unbound shard keeps the table functional. -/
theorem tableFunctional_append {t : List (ShardId × NodeId)} {s : ShardId}
    {n : NodeId} (hf : tableFunctional t) (hl : lookupA t s = none) :
    tableFunctional (t ++ [(s, n)]) := by
  intro s' n₁ n₂ h₁ h₂
  rw [List.mem_append] at h₁ h₂
  rcases h₁ with h₁ | h₁ <;> rcases h₂ with h₂ | h₂
  · exact hf s' n₁ n₂ h₁ h₂
  · simp [Prod.mk.injEq] at h₂
    rcases h₂ with ⟨hs, hn⟩
    subst hs
    exact absurd h₁ (lookupA_none_not_mem hl n₁)
  · simp [Prod.mk.injEq] at h₁
    rcases h₁ with ⟨hs, hn⟩
    subst hs
    exact absurd h₂ (lookupA_none_not_mem hl n₂)
  · simp [Prod.mk.injEq] at h₁ h₂
    rw [h₁.2, h₂.2]

/-- The invariant holds in the initial state. -/
theorem shardingInv_init (nodes : List (NodeId × String)) :
    ShardingInv (initShardingState nodes) := by
  refine ⟨rfl, ?_, ?_⟩
  · intro s n₁ n₂ h₁ h₂
    simp [initShardingState] at h₁
  · intro h hh s hs
    simp [initShardingState] at hh
    obtain ⟨a, b, hab, hh⟩ := hh
    rw [← hh] at hs
    simp at hs

/-- The invariant is preserved by every coordinator operation, including a
coordinator stop followed by recovery from the persisted journal. -/
theorem shardingInv_step (σ : ShardingState) (op : CoordinatorOp)
    (hinv : ShardingInv σ) : ShardingInv (stepOp σ op) := by
  obtain ⟨hmj, hf, hc⟩ := hinv
  cases op with
  | restart =>
    have hre : stepOp σ CoordinatorOp.restart = σ := by
      show restartCoordinator σ = σ
      unfold restartCoordinator
      rw [← hmj]
    rw [hre]
    exact ⟨hmj, hf, hc⟩
  | alloc s =>
    show ShardingInv (allocateShard σ s).snd
    cases hl : lookupA σ.table s with
    | some n =>
      simp only [allocateShard, hl]
      exact ⟨hmj, hf, hc⟩
    | none =>
      cases hp : pickHost σ.hosts with
      | none =>
        simp only [allocateShard, hl, hp]
        exact ⟨hmj, hf, hc⟩
      | some n =>
        simp only [allocateShard, hl, hp]
        refine ⟨?_, ?_, ?_⟩
        · show σ.table ++ [(s, n)]
            = replayJournal (σ.journal ++ [{ shard_id := s, node_id := n }])
          rw [hmj]
          unfold replayJournal
          rw [List.map_append]
          rfl
        · exact tableFunctional_append hf hl
        · intro h' hh' s' hs'
          have hh2 : h' ∈ List.map (fun h =>
              if h.node_id = n then { h with shards := h.shards ++ [s] }
              else h) σ.hosts := hh'
          rw [List.mem_map] at hh2
          obtain ⟨h, hh, hfh⟩ := hh2
          subst hfh
          by_cases hn : h.node_id = n
          · rw [if_pos hn] at hs' ⊢
            have hs2 : s' ∈ h.shards ++ [s] := hs'
            rw [List.mem_append] at hs2
            show lookupA (σ.table ++ [(s, n)]) s' = some h.node_id
            rcases hs2 with hs2 | hs2
            · exact lookupA_append_some _ (hc h hh s' hs2)
            · simp at hs2
              subst hs2
              rw [hn]
              exact lookupA_append_self hl n
          · rw [if_neg hn] at hs' ⊢
            show lookupA (σ.table ++ [(s, n)]) s' = some h.node_id
            exact lookupA_append_some _ (hc h hh s' hs')

/-- The invariant holds along every operation sequence. -/
theorem shardingInv_runOps (ops : List CoordinatorOp) :
    ∀ σ : ShardingState, ShardingInv σ → ShardingInv (runOps σ ops) := by
  induction ops with
  | nil => intro σ h; exact h
  | cons op rest ih =>
    intro σ h
    exact ih (stepOp σ op) (shardingInv_step σ op h)

/-- An existing table binding survives one coordinator operation. -/
theorem lookup_table_step (σ : ShardingState) (op : CoordinatorOp)
    {s : ShardId} {n : NodeId} (hinv : ShardingInv σ)
    (h : lookupA σ.table s = some n) :
    lookupA (stepOp σ op).table s = some n := by
  cases op with
  | restart =>
    have hre : stepOp σ CoordinatorOp.restart = σ := by
      show restartCoordinator σ = σ
      unfold restartCoordinator
      rw [← hinv.1]
    rw [hre]
    exact h
  | alloc s' =>
    show lookupA (allocateShard σ s').snd.table s = some n
    cases hl : lookupA σ.table s' with
    | some m =>
      simp only [allocateShard, hl]
      exact h
    | none =>
      cases hp : pickHost σ.hosts with
      | none =>
        simp only [allocateShard, hl, hp]
        exact h
      | some m =>
        simp only [allocateShard, hl, hp]
        exact lookupA_append_some _ h

/-- An existing table binding survives every operation sequence, restarts
included. -/
theorem lookup_table_runOps (ops : List CoordinatorOp) :
    ∀ (σ : ShardingState) {s : ShardId} {n : NodeId}, ShardingInv σ →
      lookupA σ.table s = some n →
      lookupA (runOps σ ops).table s = some n := by
  induction ops with
  | nil => intro σ s n _ h; exact h
  | cons op rest ih =>
    intro σ s n hinv h
    exact ih (stepOp σ op) (shardingInv_step σ op hinv)
      (lookup_table_step σ op hinv h)

/-- C1: from any reachable state in which shard `s` is not yet allocated and
at least one host is registered, the first `AllocateShard s` returns
`Allocated n` for some registered host `n`, and every subsequent
`AllocateShard s` — after any further sequence of allocations and coordinator
stop-and-rebuild restarts against the same persisted journal and hosts —
returns `AlreadyAllocated n` with the identical node id `n`: allocation never
regresses to unallocated across a coordinator restart. -/
theorem allocateShard_idempotent_across_restart
    (nodes : List (NodeId × String)) (opsBefore : List CoordinatorOp)
    (s : ShardId)
    (h0 : lookupA (runOps (initShardingState nodes) opsBefore).table s = none)
    (h1 : (runOps (initShardingState nodes) opsBefore).hosts ≠ []) :
    ∃ n : NodeId,
      (allocateShard (runOps (initShardingState nodes) opsBefore) s).fst
        = AllocateShardResult.Allocated n ∧
      n ∈ (runOps (initShardingState nodes) opsBefore).hosts.map
        ShardHostStateM.node_id ∧
      ∀ opsAfter : List CoordinatorOp,
        (allocateShard (runOps ((allocateShard (runOps
            (initShardingState nodes) opsBefore) s).snd) opsAfter) s).fst
          = AllocateShardResult.AlreadyAllocated n := by
  obtain ⟨n, hp⟩ := pickHost_of_ne_nil h1
  refine ⟨n, ?_, pickHost_mem hp, ?_⟩
  · simp only [allocateShard, h0, hp]
  · intro opsAfter
    have hinv : ShardingInv (runOps (initShardingState nodes) opsBefore) :=
      shardingInv_runOps opsBefore _ (shardingInv_init nodes)
    have hinv2 : ShardingInv (allocateShard (runOps (initShardingState nodes)
        opsBefore) s).snd :=
      shardingInv_step _ (CoordinatorOp.alloc s) hinv
    have hlook : lookupA (allocateShard (runOps (initShardingState nodes)
        opsBefore) s).snd.table s = some n := by
      simp only [allocateShard, h0, hp]
      exact lookupA_append_self h0 n
    have hstable := lookup_table_runOps opsAfter _ hinv2 hlook
    generalize hσ : runOps ((allocateShard (runOps (initShardingState nodes)
        opsBefore) s).snd) opsAfter = σ2 at hstable ⊢
    simp only [allocateShard, hstable]

/-- Witness for C1 on the test scenario: one host with node id 1, fresh
state, shard 1; the subsequent calls cover, in particular, the restarted
coordinator. -/
theorem allocateShard_idempotent_across_restart_witness :
    lookupA (runOps (initShardingState [(1, "system-one")]) []).table 1
      = none ∧
    ∃ n : NodeId,
      (allocateShard (runOps (initShardingState [(1, "system-one")]) [])
          1).fst = AllocateShardResult.Allocated n ∧
      n ∈ (runOps (initShardingState [(1, "system-one")]) []).hosts.map
        ShardHostStateM.node_id ∧
      ∀ opsAfter : List CoordinatorOp,
        (allocateShard (runOps ((allocateShard (runOps
            (initShardingState [(1, "system-one")]) []) 1).snd)
            opsAfter) 1).fst = AllocateShardResult.AlreadyAllocated n :=
  ⟨rfl, allocateShard_idempotent_across_restart [(1, "system-one")] [] 1 rfl
    (by decide)⟩

/-- C3: at every reachable state of the shard coordinator, the assignment
table maps every shard to at most one node — no shard id is assigned to two
different nodes — and no shard is hosted by two different nodes
simultaneously. -/
theorem shard_assignment_single_node (nodes : List (NodeId × String))
    (ops : List CoordinatorOp) :
    (∀ (s : ShardId) (n₁ n₂ : NodeId),
      (s, n₁) ∈ (runOps (initShardingState nodes) ops).table →
      (s, n₂) ∈ (runOps (initShardingState nodes) ops).table → n₁ = n₂) ∧
    (∀ (s : ShardId) (h₁ h₂ : ShardHostStateM),
      h₁ ∈ (runOps (initShardingState nodes) ops).hosts →
      h₂ ∈ (runOps (initShardingState nodes) ops).hosts →
      s ∈ h₁.shards → s ∈ h₂.shards → h₁.node_id = h₂.node_id) := by
  have hinv := shardingInv_runOps ops _ (shardingInv_init nodes)
  refine ⟨hinv.2.1, ?_⟩
  intro s h₁ h₂ hh₁ hh₂ hs₁ hs₂
  have e₁ := hinv.2.2 h₁ hh₁ s hs₁
  have e₂ := hinv.2.2 h₂ hh₂ s hs₂
  exact Option.some.inj (e₁.symm.trans e₂)

/-- C6: allocating shard 1 on a fresh system with a single registered host
returns `Allocated` for that host, and the host's `GetStats` afterwards
reports `hosted_shards = [1]`. -/
theorem host_stats_reflect_allocation (n : NodeId) (tag : String) :
    (allocateShard (initShardingState [(n, tag)]) 1).fst
      = AllocateShardResult.Allocated n ∧
    getStats (allocateShard (initShardingState [(n, tag)]) 1).snd n
      = some [1] := by
  constructor
  · simp [allocateShard, initShardingState, lookupA, pickHost]
  · simp [allocateShard, initShardingState, lookupA, pickHost, getStats,
      hostsAfterAllocation]

/-- Witness for C3 after one allocation on a single-host system: shard 1 is
in the table, and both table functionality and single-hosting hold at the
concrete entries. -/
theorem shard_assignment_single_node_witness :
    ((1 : ShardId), (1 : NodeId)) ∈
      (runOps (initShardingState [(1, "system-one")])
        [CoordinatorOp.alloc 1]).table ∧
    (1 : NodeId) = 1 :=
  ⟨by decide,
   (shard_assignment_single_node [(1, "system-one")]
      [CoordinatorOp.alloc 1]).1 1 1 1 (by decide) (by decide)⟩
